import Mathlib

/-!
# Verification of the apifetch resilience engine

Shallow embedding of the `apifetch` Python package (files `apifetch/apifetch.py`,
`apifetch/request.py`, `apifetch/log.py`, `apifetch/exceptions.py`) and proofs of
properties of its retry/backoff/deadline orchestration, GCRA rate limiter, status
classification, strategy validation and header masking.

Modelling conventions:
* Python floats are modelled as exact rationals (`ℚ`).  All numeric inputs used in
  the theorems are far from binary-float rounding boundaries.
* Wall-clock reads (`time.time`, `time.perf_counter`) are modelled by an explicit
  elapsed-time counter that advances by the duration of every sleep and of every
  transport attempt; checks between two adjacent statements are instantaneous.
* Python exceptions are modelled as explicit error values (`Except`/`Option`); a
  `try/except` block becomes a `match` on the fallible result.
-/

namespace Apifetch

/-- Python slicing `s[a:b]` (for `0 ≤ a ≤ b`) on a string, as used in
`str(r.status_code)[0:2]` and `code[0:1]` in the source. -/
def pySlice (s : String) (a b : Nat) : String :=
  String.mk ((s.data.drop a).take (b - a))

/-- `str(status_code)`: the decimal representation of the status code. -/
def statusStr (n : Nat) : String := toString n

/-- The three classification outcomes of a completed HTTP response inside
`ApiFetcher.request_url` (apifetch.py lines 170-186): return the response
(success), `raise_for_status()` (fatal), or `continue` (retry). -/
inductive Outcome
  | success
  | retry
  | fatal
deriving DecidableEq, Repr

/-- Classification of a response status against the strategy's
`normal_codes`/`fatal_codes`, translated from apifetch.py lines 170-186:
the status is in the error range iff `400 <= status < 600` and its string is not
in `normal_codes`; within the error range it is fatal iff the exact string, the
first-two-digits+"x" pattern or the first-digit+"xx" pattern is in
`fatal_codes`; otherwise it is retried; outside the error range the response is
returned (success). -/
def classify (status : Nat) (normalCodes fatalCodes : List String) : Outcome :=
  if 400 ≤ status ∧ status < 600 ∧ ¬ statusStr status ∈ normalCodes then
    if statusStr status ∈ fatalCodes
        ∨ pySlice (statusStr status) 0 2 ++ "x" ∈ fatalCodes
        ∨ pySlice (statusStr status) 0 1 ++ "xx" ∈ fatalCodes
    then .fatal
    else .retry
  else .success

/-! ## The GCRA rate limiter (request.py, class LocalGCRA) -/

/-- `round(x, 2)` of Python on the rational model: round `x * 100` to the nearest
integer and divide by 100.  (Python rounds exact halves to even on the binary
float value; no input in this development sits on a half boundary.) -/
def roundTo2 (q : ℚ) : ℚ := (round (q * 100) : ℤ) / 100

/-- The fixed epoch `jan_1_2020 = 1577836800` used by `LocalGCRA.is_rejected`. -/
def jan12020 : ℚ := 1577836800

/-- State of `LocalGCRA`: the stored theoretical arrival time (`self.limit`,
`None` until the first allowed call) and the emission interval. -/
structure LocalGCRA where
  limit : Option ℚ
  emission_interval : ℚ
deriving DecidableEq, Repr

/-- `LocalGCRA.is_rejected` (request.py lines 105-130), with the current wall
clock `ts` (`time.time()`) passed explicitly.  Returns the Python result pair
`(rejected?, retry_after)` together with the state after the call. -/
def LocalGCRA.is_rejected (g : LocalGCRA) (ts : ℚ) : (Bool × ℚ) × LocalGCRA :=
  let now := ts - jan12020
  let tat := g.limit.getD now
  let allow_at := max tat now
  let new_tat := allow_at + g.emission_interval
  let diff := now - allow_at
  if diff < 0 then
    ((true, roundTo2 (-1 * diff)), g)
  else
    ((false, -1), { g with limit := some new_tat })

/-! ## The retry engine (apifetch.py, ApiFetcher.request_url) -/

/-- The configuration object `RequestStrategy` (request.py lines 22-94), with the
class-attribute defaults of the source.  `kill_timeout_s` is an `int` in the
source (constructor annotation `kill_timeout: int`), hence `ℤ` here.  The
connect/read timeouts are passed through to the transport untouched by the
retry loop. -/
structure RequestStrategy where
  tries : Nat := 1
  total_time : Option ℚ := none
  normal_codes : List String := []
  fatal_codes : List String := []
  backoff_exp : ℚ := 2
  backoff_mul : ℚ := 1/2
  rate_limiter : Option LocalGCRA := none
  connect_timeout_s : ℚ := 0
  read_timeout_s : ℚ := 0
  kill_timeout_s : ℤ := 0
deriving DecidableEq

/-- Python truthiness of the optional float `strategy.total_time`, as used in
`if self.strategy.total_time:` and `if self.strategy.total_time and ...`:
`None` and `0.0` are falsy. -/
def truthy (t : Option ℚ) : Bool :=
  match t with
  | none => false
  | some x => decide (x ≠ 0)

/-- Result of one call of `_request_url_once`: either a response with a status
code, or a retryable low-level failure (`RequestTimeout` or a
`requests.exceptions.RequestException`).  `dur` is the wall-clock duration the
attempt consumed. -/
inductive AttemptResult
  | response (status : Nat) (dur : ℚ)
  | transportError (dur : ℚ)
deriving DecidableEq

/-- The exceptions `request_url` can raise, with the data embedded in their
message.  The first four are all `RequestFailure` instances in the source
(exceptions.py line 8); `httpError` is the `requests.exceptions.HTTPError`
produced by `r.raise_for_status()`. -/
inductive RaisedException
  | backoffBudget (total : ℚ)
  | totalBudget (total : ℚ)
  | rateLimitBudget (total : ℚ) (retryAfter : ℚ)
  | exhausted (tries : Nat)
  | httpError (status : Nat)
deriving DecidableEq

/-- The Python exception class of each raised error (from exceptions.py and
`requests`).  All budget failures and retries exhaustion share the single class
`RequestFailure`. -/
def RaisedException.pythonType : RaisedException → String
  | .httpError _ => "HTTPError"
  | _ => "RequestFailure"

/-- The message string of each raised error, from the `format` calls at
apifetch.py lines 79-83, 99-103, 123-127 and 189-191.  Numbers are rendered
with the rational/natural `toString`; Python renders the same values as floats
(e.g. `2.0` instead of `2`), which never makes two distinct templates
collide. -/
def RaisedException.message : RaisedException → String
  | .backoffBudget t =>
      "Total timeout of " ++ toString t ++ " seconds would get reached after exponential backoff"
  | .totalBudget t =>
      "Total timeout of " ++ toString t ++ " seconds reached"
  | .rateLimitBudget t w =>
      "Total timeout of " ++ toString t ++
        " seconds would get reached after rate limiter Retry-After value of " ++ toString w
  | .exhausted n =>
      "Request failed (total: " ++ toString n ++ " tries)"
  | .httpError s =>
      toString s ++ " Error"

/-- Is the raised error one of the total-time-budget failures (apifetch.py
lines 79, 99, 123)? -/
def RaisedException.isBudgetFailure : RaisedException → Bool
  | .backoffBudget _ => true
  | .totalBudget _ => true
  | .rateLimitBudget _ _ => true
  | _ => false

/-- Final outcome of `request_url`: a returned response or a raised exception. -/
inductive FetchOutcome
  | success (status : Nat)
  | failure (e : RaisedException)
deriving DecidableEq

/-- Observable trace of one `request_url` call: the exponential-backoff sleep
durations, the rate-limiter sleep durations, the effective kill timeout handed
to each transport attempt, the number of `is_rejected` calls, the outcome, the
final limiter state and the final elapsed time. -/
structure RunTrace where
  backoffSleeps : List ℚ
  rlSleeps : List ℚ
  kills : List ℤ
  rlCalls : Nat
  outcome : FetchOutcome
  limiterFinal : Option LocalGCRA
  elapsedFinal : ℚ
deriving DecidableEq

/-- The budget check guarding the exponential-backoff sleep (apifetch.py lines
72-78): with a truthy `total_time`, fail if `total_time - elapsed - to_sleep ≤ 0`. -/
def backoffBudgetExceeded (total : Option ℚ) (elapsed toSleep : ℚ) : Bool :=
  truthy total && decide (total.getD 0 - elapsed - toSleep ≤ 0)

/-- The effective kill-timeout computation of apifetch.py lines 93-107: with a
truthy `total_time`, raise `RequestFailure` when no budget is left, otherwise
take `math.ceil(min(max_time_left, kill_timeout_s))`; with no `total_time` the
strategy's `kill_timeout_s` is used unchanged. -/
def killPhase (total : Option ℚ) (elapsed : ℚ) (kill : ℤ) : Except RaisedException ℤ :=
  if truthy total then
    let left := total.getD 0 - elapsed
    if left ≤ 0 then .error (.totalBudget (total.getD 0))
    else .ok ⌈min left (kill : ℚ)⌉
  else .ok kill

/-- The budget check guarding the rate-limiter sleep (apifetch.py lines
116-122): with a truthy `total_time`, fail if `total_time - elapsed - res[1] ≤ 0`.
Note that the advised wait `res[1]` alone is checked; the 50 ms padding added to
the actual sleep at line 133-135 is not part of the check. -/
def rlBudgetExceeded (total : Option ℚ) (elapsed w : ℚ) : Bool :=
  truthy total && decide (total.getD 0 - elapsed - w ≤ 0)

/-- The rate-limiter step of apifetch.py lines 111-135, for a configured
limiter in state `gc` consulted at wall time `ts`: on rejection with wait `w`,
either fail the budget check or sleep `w + 50/1000` seconds.  Returns the
limiter state after the call, and either the raised failure or the performed
sleeps with the new elapsed time. -/
def rlPhase (total : Option ℚ) (elapsed : ℚ) (gc : LocalGCRA) (ts : ℚ) :
    LocalGCRA × Except RaisedException (List ℚ × ℚ) :=
  let res := gc.is_rejected ts
  let w := res.1.2
  if res.1.1 then
    if rlBudgetExceeded total elapsed w then
      (res.2, .error (.rateLimitBudget (total.getD 0) w))
    else
      (res.2, .ok ([w + 50/1000], elapsed + (w + 50/1000)))
  else (res.2, .ok ([], elapsed))

/-- Prepend the per-iteration sleeps, kill timeout and limiter-call count onto
the trace of the remaining iterations. -/
def RunTrace.stepCons (bs rls : List ℚ) (kt : ℤ) (calls : Nat) (r : RunTrace) : RunTrace :=
  ⟨bs ++ r.backoffSleeps, rls ++ r.rlSleeps, kt :: r.kills, calls + r.rlCalls,
    r.outcome, r.limiterFinal, r.elapsedFinal⟩

/-- The `while tries < self.strategy.tries` loop of `ApiFetcher.request_url`
(apifetch.py lines 64-191).  `fuel` is the number of loop iterations still
permitted (`strategy.tries - tries`, so `fuel = 0` exactly when the loop guard
fails and `RequestFailure("Request failed ...")` is raised); `tries` is the
number of attempts already made; `elapsed` is `time.perf_counter() - start_ts`;
`g` is the rate limiter state (present iff a limiter is configured).  The
transport (`_request_url_once`) is abstracted as a function of the attempt
number and of the kill timeout handed to it.  `t0` is the wall-clock value of
`time.time()` at `elapsed = 0`. -/
def requestLoop (st : RequestStrategy) (transport : Nat → ℤ → AttemptResult) (t0 : ℚ) :
    Nat → Nat → ℚ → Option LocalGCRA → RunTrace
  | 0, _tries, elapsed, g =>
      ⟨[], [], [], 0, .failure (.exhausted st.tries), g, elapsed⟩
  | fuel + 1, tries, elapsed0, g0 =>
      let toSleep := st.backoff_mul * st.backoff_exp ^ tries
      if tries != 0 && backoffBudgetExceeded st.total_time elapsed0 toSleep then
        ⟨[], [], [], 0, .failure (.backoffBudget (st.total_time.getD 0)), g0, elapsed0⟩
      else
        let bSleeps := if tries == 0 then ([] : List ℚ) else [toSleep]
        let elapsed1 := if tries == 0 then elapsed0 else elapsed0 + toSleep
        let tries1 := tries + 1
        match killPhase st.total_time elapsed1 st.kill_timeout_s with
        | .error e => ⟨bSleeps, [], [], 0, .failure e, g0, elapsed1⟩
        | .ok kt =>
          let rl : (Option LocalGCRA × Nat) × Except RaisedException (List ℚ × ℚ) :=
            match g0 with
            | none => ((none, 0), .ok ([], elapsed1))
            | some gc =>
                let p := rlPhase st.total_time elapsed1 gc (t0 + elapsed1)
                ((some p.1, 1), p.2)
          match rl.2 with
          | .error e => ⟨bSleeps, [], [], rl.1.2, .failure e, rl.1.1, elapsed1⟩
          | .ok (rls, elapsed2) =>
            match transport tries1 kt with
            | .transportError dur =>
                (requestLoop st transport t0 fuel tries1 (elapsed2 + dur) rl.1.1).stepCons
                  bSleeps rls kt rl.1.2
            | .response status dur =>
                let elapsed3 := elapsed2 + dur
                if status == 0 then
                  (requestLoop st transport t0 fuel tries1 elapsed3 rl.1.1).stepCons
                    bSleeps rls kt rl.1.2
                else
                  match classify status st.normal_codes st.fatal_codes with
                  | .success =>
                      ⟨bSleeps, rls, [kt], rl.1.2, .success status, rl.1.1, elapsed3⟩
                  | .fatal =>
                      ⟨bSleeps, rls, [kt], rl.1.2, .failure (.httpError status),
                        rl.1.1, elapsed3⟩
                  | .retry =>
                      (requestLoop st transport t0 fuel tries1 elapsed3 rl.1.1).stepCons
                        bSleeps rls kt rl.1.2

/-- `ApiFetcher.request_url`: run the loop from `tries = 0`, `elapsed = 0` with
the strategy's configured rate limiter. -/
def request_url (st : RequestStrategy) (transport : Nat → ℤ → AttemptResult) (t0 : ℚ) :
    RunTrace :=
  requestLoop st transport t0 st.tries 0 0 st.rate_limiter

/-- The exception class of the error a run raises, if it raises one. -/
def RunTrace.raisedType (r : RunTrace) : Option String :=
  match r.outcome with
  | .failure e => some e.pythonType
  | .success _ => none

/-! ## Strategy status-code validation (request.py lines 70-82) -/

/-- Python `s.strip()`: remove surrounding whitespace. -/
def pyStrip (s : String) : String :=
  String.mk (((s.data.dropWhile Char.isWhitespace).reverse.dropWhile Char.isWhitespace).reverse)

/-- Decimal value of a nonempty all-digit character list. -/
def digitsToNat (cs : List Char) : Nat :=
  cs.foldl (fun acc c => acc * 10 + (c.toNat - 48)) 0

/-- Python `int(s)` on a string: strip surrounding whitespace, accept an
optional sign followed by decimal digits, otherwise raise `ValueError`
(modelled as `none`).  (Python additionally accepts underscore digit
separators and non-ASCII decimal digits; no input in this development uses
them.) -/
def pyIntOfString (s : String) : Option Int :=
  let t := (pyStrip s).data
  let (sign, ds) : Int × List Char :=
    match t with
    | '-' :: rest => (-1, rest)
    | '+' :: rest => (1, rest)
    | _ => (1, t)
  if ds ≠ [] ∧ ds.all Char.isDigit then some (sign * digitsToNat ds) else none

/-- Does a (string) entry survive the `normal_response_codes` validation loop
(request.py lines 70-75)?  The entry survives iff `int(code)` parses and lies
in `[400, 600)`; both the explicit `raise Exception` and a `ValueError` from
`int` are construction-time errors. -/
def normalCodeAccepted (code : String) : Bool :=
  match pyIntOfString code with
  | some n => decide (400 ≤ n) && decide (n < 600)
  | none => false

/-- Does a (string) entry survive the `fatal_response_codes` validation loop
(request.py lines 77-82)?  The only check is `code[0:1] != "4" and code[0:1] != "5"`. -/
def fatalCodeAccepted (code : String) : Bool :=
  pySlice code 0 1 == "4" || pySlice code 0 1 == "5"

/-- Modelled from the claim's words, for comparison with the source validator:
a well-formed fatal pattern is a 3-digit exact code, or 2 digits followed by
`x`, or 1 digit followed by `xx`, in each case starting with `4` or `5`. -/
def wellFormedFatalPattern (code : String) : Bool :=
  match code.data with
  | [a, b, c] =>
      (a == '4' || a == '5') &&
        ((b.isDigit && c.isDigit) || (b.isDigit && c == 'x') || (b == 'x' && c == 'x'))
  | _ => false

/-- Modelled from the claim's words, for comparison with the source validator:
a well-formed normal code is a 3-digit code string denoting a value in
`[400, 600)`, i.e. three digits the first of which is `4` or `5`. -/
def wellFormedNormalCode (code : String) : Bool :=
  match code.data with
  | [a, b, c] => (a == '4' || a == '5') && b.isDigit && c.isDigit
  | _ => false

/-! ## The header-filter rule stack (log.py, class HeaderFilter)

`HeaderFilter` declares `stack = []` as a *class* attribute and its methods do
`self.stack.append(fn)`.  Python attribute semantics: reading `self.stack`
falls back to the class attribute when the instance `__dict__` has no entry,
and `append` mutates the list object found there in place.  We model the heap
of list objects explicitly so the aliasing is visible. -/

/-- A registered masking rule, identified by the registering call and its
arguments (the closures `fn` of `mask_by_name` / `mask_authorization`). -/
inductive RuleTag
  | byName (header : String) (showFirstChars : Option Nat)
  | authorization
deriving DecidableEq

/-- Heap of Python list objects, addressed by index. -/
structure Heap where
  lists : List (List RuleTag)
deriving DecidableEq

/-- The `HeaderFilter` class object: its `__dict__` maps `stack` to a reference
to one list object (initialized to `[]` once, when the class body runs). -/
structure HeaderFilterClass where
  stackRef : Nat
deriving DecidableEq

/-- A `HeaderFilter` instance: its `__dict__` entry for `stack`, if any.  The
source never assigns `self.stack`, so every instance the source creates has
`ownStackRef = none`. -/
structure HeaderFilterInstance where
  ownStackRef : Option Nat
deriving DecidableEq

/-- `HeaderFilter()`: the class has no `__init__`, so a fresh instance has an
empty `__dict__`. -/
def newHeaderFilter : HeaderFilterInstance := ⟨none⟩

/-- Attribute lookup for `self.stack`: the instance `__dict__` first, then the
class attribute. -/
def lookupStackRef (cls : HeaderFilterClass) (inst : HeaderFilterInstance) : Nat :=
  inst.ownStackRef.getD cls.stackRef

/-- `list.append` on the heap object at reference `r`. -/
def appendRuleAt (h : Heap) (r : Nat) (tag : RuleTag) : Heap :=
  ⟨h.lists.set r ((h.lists.getD r []) ++ [tag])⟩

/-- `HeaderFilter.mask_by_name` (log.py lines 28-43): append the closure to
`self.stack`. -/
def mask_by_name_model (h : Heap) (cls : HeaderFilterClass) (inst : HeaderFilterInstance)
    (header : String) (showFirstChars : Option Nat) : Heap :=
  appendRuleAt h (lookupStackRef cls inst) (.byName header showFirstChars)

/-- `HeaderFilter.mask_authorization` (log.py lines 45-95): append the closure
to `self.stack`. -/
def mask_authorization_model (h : Heap) (cls : HeaderFilterClass)
    (inst : HeaderFilterInstance) : Heap :=
  appendRuleAt h (lookupStackRef cls inst) .authorization

/-- The rule list an instance observes when `LogStrategy._write_headers`
iterates `header_filter.stack` (log.py line 205). -/
def observedStack (h : Heap) (cls : HeaderFilterClass) (inst : HeaderFilterInstance) :
    List RuleTag :=
  h.lists.getD (lookupStackRef cls inst) []

/-! ## Base64 and UTF-8 decoding (Python stdlib collaborators of log.py)

`mask_authorization` calls `base64.b64decode`, `base64.urlsafe_b64decode` and
`bytes.decode()`.  These stdlib collaborators are modelled here: non-strict
base64 decoding discards characters outside the alphabet, treats `=` padding
as terminating a quantum once at least two data characters of the quantum are
present (ignoring stray `=` earlier in a quantum), and errors out on leftover
data characters; `decode()` is strict UTF-8. -/

/-- Value of a standard-alphabet base64 character. -/
def b64CharVal (c : Char) : Option Nat :=
  if 'A' ≤ c ∧ c ≤ 'Z' then some (c.toNat - 65)
  else if 'a' ≤ c ∧ c ≤ 'z' then some (c.toNat - 97 + 26)
  else if '0' ≤ c ∧ c ≤ '9' then some (c.toNat - 48 + 52)
  else if c = '+' then some 62
  else if c = '/' then some 63
  else none

/-- The three bytes of a full base64 quantum. -/
def b64Quantum (a b c d : Nat) : List Nat :=
  [a * 4 + b / 16, (b % 16) * 16 + c / 4, (c % 4) * 64 + d]

/-- The bytes of a padded final quantum (2 or 3 data characters). -/
def b64Final : List Nat → List Nat
  | [a, b] => [a * 4 + b / 16]
  | [a, b, c] => [a * 4 + b / 16, (b % 16) * 16 + c / 4]
  | _ => []

/-- Non-strict base64 decoding loop (CPython `binascii.a2b_base64` with
`strict_mode=False`): `quad` holds the data-character values of the current
quantum, `pads` the padding characters seen at quantum positions ≥ 2. -/
def a2bBase64 : List Char → List Nat → Nat → List Nat → Option (List Nat)
  | [], quad, _pads, acc => if quad.isEmpty then some acc else none
  | c :: rest, quad, pads, acc =>
    match b64CharVal c with
    | some v =>
        match quad with
        | [a, b, cc] => a2bBase64 rest [] pads (acc ++ b64Quantum a b cc v)
        | _ => a2bBase64 rest (quad ++ [v]) pads acc
    | none =>
        if c = '=' then
          if 2 ≤ quad.length then
            if 4 ≤ quad.length + (pads + 1) then some (acc ++ b64Final quad)
            else a2bBase64 rest quad (pads + 1) acc
          else a2bBase64 rest quad pads acc
        else a2bBase64 rest quad pads acc

/-- `base64.b64decode` on a `str` argument: the string must be pure ASCII
(otherwise `ValueError`), then the non-strict decoding loop runs. -/
def b64decodePy (s : String) : Option (List Nat) :=
  if s.data.all (fun c => c.toNat < 128) then a2bBase64 s.data [] 0 [] else none

/-- The `-_ → +/` character translation of `base64.urlsafe_b64decode`. -/
def urlsafeTranslate (c : Char) : Char :=
  if c = '-' then '+' else if c = '_' then '/' else c

/-- `base64.urlsafe_b64decode` on a `str` argument. -/
def urlsafeB64decodePy (s : String) : Option (List Nat) :=
  if s.data.all (fun c => c.toNat < 128) then
    a2bBase64 (s.data.map urlsafeTranslate) [] 0 []
  else none

/-- Strict UTF-8 decoding of a byte list (`bytes.decode()`), rejecting
malformed sequences, overlong encodings, surrogates and out-of-range code
points. -/
def utf8DecodeAux : List Nat → Option (List Char)
  | [] => some []
  | b :: rest =>
    if b < 0x80 then
      (utf8DecodeAux rest).map (Char.ofNat b :: ·)
    else if b < 0xC2 then none
    else if b < 0xE0 then
      match rest with
      | b2 :: rest2 =>
          if 0x80 ≤ b2 ∧ b2 < 0xC0 then
            (utf8DecodeAux rest2).map (Char.ofNat ((b - 0xC0) * 64 + (b2 - 0x80)) :: ·)
          else none
      | [] => none
    else if b < 0xF0 then
      match rest with
      | b2 :: b3 :: rest3 =>
          if (0x80 ≤ b2 ∧ b2 < 0xC0) ∧ (0x80 ≤ b3 ∧ b3 < 0xC0) then
            let cp := (b - 0xE0) * 4096 + (b2 - 0x80) * 64 + (b3 - 0x80)
            if 0x800 ≤ cp ∧ ¬ (0xD800 ≤ cp ∧ cp ≤ 0xDFFF) then
              (utf8DecodeAux rest3).map (Char.ofNat cp :: ·)
            else none
          else none
      | _ => none
    else if b < 0xF5 then
      match rest with
      | b2 :: b3 :: b4 :: rest4 =>
          if (0x80 ≤ b2 ∧ b2 < 0xC0) ∧ (0x80 ≤ b3 ∧ b3 < 0xC0) ∧ (0x80 ≤ b4 ∧ b4 < 0xC0) then
            let cp := (b - 0xF0) * 262144 + (b2 - 0x80) * 4096 + (b3 - 0x80) * 64 + (b4 - 0x80)
            if 0x10000 ≤ cp ∧ cp < 0x110000 then
              (utf8DecodeAux rest4).map (Char.ofNat cp :: ·)
            else none
          else none
      | _ => none
    else none

/-- `bytes.decode()` producing a string. -/
def utf8DecodePy (bs : List Nat) : Option String :=
  (utf8DecodeAux bs).map String.mk

/-! ## The authorization masking rule (log.py, HeaderFilter.mask_authorization) -/

/-- Python `s.lower()` on the ASCII range (the source only compares against
ASCII literals `"authorization"`, `"basic"`, `"bearer"`). -/
def pyLower (s : String) : String :=
  String.mk (s.data.map Char.toLower)

/-- Python `value.split(sep, 1)` for a one-character separator: a list of one
or two parts. -/
def pySplitOnce (s : String) (sep : Char) : List String :=
  match s.data.findIdx? (· == sep) with
  | none => [s]
  | some i => [String.mk (s.data.take i), String.mk (s.data.drop (i + 1))]

/-- Python `value.split(".")` (split on every occurrence, keeping empty
parts). -/
def splitCharAux (sep : Char) : List Char → List Char → List (List Char)
  | [], acc => [acc.reverse]
  | c :: rest, acc =>
      if c == sep then acc.reverse :: splitCharAux sep rest []
      else splitCharAux sep rest (c :: acc)

/-- Python `s.split(sep)` for a one-character separator. -/
def pySplitAll (s : String) (sep : Char) : List String :=
  (splitCharAux sep s.data []).map String.mk

/-- The closure `fn` registered by `HeaderFilter.mask_authorization` (log.py
lines 46-91), applied to one header name/value pair.  Every fallible decoding
step is wrapped exactly where the source has a `try/except`. -/
def mask_authorization_fn (name value : String) : String × String :=
  let cval : Option String :=
    if pyLower name == "authorization" then
      match pySplitOnce value ' ' with
      | [p0, p1] =>
        let ty := pyLower p0
        if ty == "basic" then
          let basic : List String :=
            match b64decodePy p1 >>= utf8DecodePy with
            | some s => pySplitOnce s ':'
            | none => ["?"]
          some (p0 ++ " <<masked password, username=" ++ basic.headD "" ++ ">>")
        else if ty == "bearer" then
          let jwt := pySplitAll p1 '.'
          if jwt.length == 3 then
            let jwtout : String × String :=
              match urlsafeB64decodePy (jwt.getD 0 "" ++ "===") >>= utf8DecodePy,
                    urlsafeB64decodePy (jwt.getD 1 "" ++ "===") >>= utf8DecodePy with
              | some hd, some bd => (hd, bd)
              | _, _ => ("?", "?")
            some (p0 ++ " <<masked JWT, header=" ++ jwtout.1 ++ ", body=" ++ jwtout.2 ++ ">>")
          else
            some (p0 ++ " <<masked opaque token>>")
        else
          some (p0 ++ " <<masked>>")
      | _ => none
    else none
  (name, cval.getD value)

/-! ## Theorems -/

/-- The fatal-pattern membership test of apifetch.py lines 175-179. -/
def fatalPatternHit (s : Nat) (fc : List String) : Prop :=
  statusStr s ∈ fc ∨ pySlice (statusStr s) 0 2 ++ "x" ∈ fc
    ∨ pySlice (statusStr s) 0 1 ++ "xx" ∈ fc

instance (s : Nat) (fc : List String) : Decidable (fatalPatternHit s fc) := by
  unfold fatalPatternHit; infer_instance

/-- C1.  Classification in `ApiFetcher.request_url` is a pure function of the
status code and the strategy's `normal_codes`/`fatal_codes`: success exactly
when the status is outside `[400, 600)` or its decimal string is in
`normal_codes`; fatal exactly when it is in the error range, not normal, and
hits a fatal pattern (exact, two-digits+"x", or one-digit+"xx"); retry
otherwise.  Concretely: `404` with `normal_codes = ["404"]` is a success,
`500` with `fatal_codes = ["5xx"]` is fatal, `503` with `fatal_codes = ["500"]`
is retried.  At the engine level, a success-classified first response is
returned and a fatal-classified first response raises the HTTP error with no
further attempts regardless of the remaining tries. -/
theorem C1_classification_policy (s : Nat) (nc fc : List String) :
    (classify s nc fc = .success ↔ (s < 400 ∨ 600 ≤ s ∨ statusStr s ∈ nc))
    ∧ (classify s nc fc = .fatal ↔
        (400 ≤ s ∧ s < 600 ∧ statusStr s ∉ nc ∧ fatalPatternHit s fc))
    ∧ (classify s nc fc = .retry ↔
        (400 ≤ s ∧ s < 600 ∧ statusStr s ∉ nc ∧ ¬ fatalPatternHit s fc))
    ∧ classify 404 ["404"] [] = .success
    ∧ classify 500 [] ["5xx"] = .fatal
    ∧ classify 503 [] ["500"] = .retry
    ∧ (∀ (st : RequestStrategy) (transport : Nat → ℤ → AttemptResult) (t0 d : ℚ),
        st.rate_limiter = none → st.total_time = none → 1 ≤ st.tries →
        transport 1 st.kill_timeout_s = .response s d → s ≠ 0 →
        (classify s st.normal_codes st.fatal_codes = .success →
            (request_url st transport t0).outcome = .success s)
        ∧ (classify s st.normal_codes st.fatal_codes = .fatal →
            (request_url st transport t0).outcome = .failure (.httpError s)
            ∧ (request_url st transport t0).kills.length = 1)) := by
  have hiff :
      (classify s nc fc = .success ↔ (s < 400 ∨ 600 ≤ s ∨ statusStr s ∈ nc))
      ∧ (classify s nc fc = .fatal ↔
          (400 ≤ s ∧ s < 600 ∧ statusStr s ∉ nc ∧ fatalPatternHit s fc))
      ∧ (classify s nc fc = .retry ↔
          (400 ≤ s ∧ s < 600 ∧ statusStr s ∉ nc ∧ ¬ fatalPatternHit s fc)) := by
    unfold classify fatalPatternHit
    split_ifs with h1 h2
    · exact ⟨iff_of_false (by simp) (by push_neg; exact ⟨by omega, by omega, h1.2.2⟩),
        iff_of_true rfl ⟨h1.1, h1.2.1, h1.2.2, h2⟩,
        iff_of_false (by simp) (fun hr => hr.2.2.2 h2)⟩
    · exact ⟨iff_of_false (by simp) (by push_neg; exact ⟨by omega, by omega, h1.2.2⟩),
        iff_of_false (by simp) (fun hr => h2 hr.2.2.2),
        iff_of_true rfl ⟨h1.1, h1.2.1, h1.2.2, h2⟩⟩
    · push_neg at h1
      refine ⟨iff_of_true rfl ?_,
        iff_of_false (by simp) (fun hr => hr.2.2.1 (h1 hr.1 hr.2.1)),
        iff_of_false (by simp) (fun hr => hr.2.2.1 (h1 hr.1 hr.2.1))⟩
      by_cases ha : 400 ≤ s
      · by_cases hb : s < 600
        · exact Or.inr (Or.inr (h1 ha hb))
        · exact Or.inr (Or.inl (by omega))
      · exact Or.inl (by omega)
  refine ⟨hiff.1, hiff.2.1, hiff.2.2, by decide, by decide, by decide, ?_⟩
  intro st transport t0 d hrl hT htries htr hs0
  obtain ⟨m, hm⟩ : ∃ m, st.tries = m + 1 := ⟨st.tries - 1, by omega⟩
  have hrun : ∀ o,
      classify s st.normal_codes st.fatal_codes = o →
      request_url st transport t0 =
        (match o with
          | .success => ⟨[], [], [st.kill_timeout_s], 0, .success s, none, d⟩
          | .fatal => ⟨[], [], [st.kill_timeout_s], 0, .failure (.httpError s), none, d⟩
          | .retry => (requestLoop st transport t0 m 1 d none).stepCons [] []
              st.kill_timeout_s 0) := by
    intro o ho
    unfold request_url
    rw [hm, hrl]
    simp only [requestLoop, hT, backoffBudgetExceeded, truthy, killPhase, Bool.false_and,
      Bool.and_false, bne_self_eq_false, Bool.false_eq_true, if_false, Nat.zero_add,
      beq_self_eq_true, if_true, htr, ho]
    cases o <;> simp [hs0]
  constructor
  · intro ho
    rw [hrun .success ho]
  · intro ho
    rw [hrun .fatal ho]
    exact ⟨rfl, rfl⟩

/-- Witness for C1 at concrete inputs: with `fatal_codes = ["5xx"]` and five
allowed tries, a first response of 500 raises the HTTP error after a single
attempt. -/
theorem C1_classification_policy_witness :
    (request_url { tries := 5, fatal_codes := ["5xx"], kill_timeout_s := 10 }
        (fun _ _ => .response 500 0) 0).outcome = .failure (.httpError 500)
    ∧ (request_url { tries := 5, fatal_codes := ["5xx"], kill_timeout_s := 10 }
        (fun _ _ => .response 500 0) 0).kills.length = 1 :=
  ((C1_classification_policy 500 [] []).2.2.2.2.2.2
      { tries := 5, fatal_codes := ["5xx"], kill_timeout_s := 10 }
      (fun _ _ => .response 500 0) 0 0 rfl rfl (by decide) rfl (by decide)).2 (by decide)

/-- C3.  `LocalGCRA.is_rejected` implements GCRA over the single stored scalar
`limit`: with `now = ts - jan12020` and `allowAt = max (stored tat or now) now`,
the call is rejected with `retryAfter = round(allowAt - now, 2)` and an
unmodified state exactly when `now - allowAt < 0`, and otherwise allowed with
the stored tat updated to `allowAt + emission_interval`.  Consequently, for any
positive emission interval, the first check after construction is allowed, an
immediate second check is rejected with `retryAfter = round(interval, 2)` and
the state unchanged, and a check after at least one emission interval of idle
time is allowed again. -/
theorem C3_local_gcra_pacing :
    (∀ (g : LocalGCRA) (ts : ℚ),
      ((ts - jan12020) - max (g.limit.getD (ts - jan12020)) (ts - jan12020) < 0 →
        g.is_rejected ts =
          ((true, roundTo2 (max (g.limit.getD (ts - jan12020)) (ts - jan12020) - (ts - jan12020))),
            g))
      ∧ (0 ≤ (ts - jan12020) - max (g.limit.getD (ts - jan12020)) (ts - jan12020) →
        g.is_rejected ts =
          ((false, -1),
            { limit := some (max (g.limit.getD (ts - jan12020)) (ts - jan12020)
                + g.emission_interval),
              emission_interval := g.emission_interval })))
    ∧ (∀ (ei ts d : ℚ), 0 < ei → ei ≤ d →
        (LocalGCRA.is_rejected ⟨none, ei⟩ ts).1.1 = false
        ∧ ((LocalGCRA.is_rejected ⟨none, ei⟩ ts).2.is_rejected ts).1.1 = true
        ∧ ((LocalGCRA.is_rejected ⟨none, ei⟩ ts).2.is_rejected ts).1.2 = roundTo2 ei
        ∧ ((LocalGCRA.is_rejected ⟨none, ei⟩ ts).2.is_rejected ts).2
            = (LocalGCRA.is_rejected ⟨none, ei⟩ ts).2
        ∧ ((((LocalGCRA.is_rejected ⟨none, ei⟩ ts).2.is_rejected ts).2.is_rejected
            (ts + d)).1.1 = false)) := by
  constructor
  · intro g ts
    constructor
    · intro h
      have harg : -1 * ((ts - jan12020) - max (g.limit.getD (ts - jan12020)) (ts - jan12020))
          = max (g.limit.getD (ts - jan12020)) (ts - jan12020) - (ts - jan12020) := by ring
      simp only [LocalGCRA.is_rejected, if_pos h, harg]
    · intro h
      simp only [LocalGCRA.is_rejected, if_neg (not_lt.mpr h)]
  · intro ei ts d h1 h2
    have e1 : LocalGCRA.is_rejected ⟨none, ei⟩ ts
        = ((false, -1), ⟨some (ts - jan12020 + ei), ei⟩) := by
      simp [LocalGCRA.is_rejected]
    have hmax : max (ts - jan12020 + ei) (ts - jan12020) = ts - jan12020 + ei :=
      max_eq_left (by linarith)
    have e2 : LocalGCRA.is_rejected ⟨some (ts - jan12020 + ei), ei⟩ ts
        = ((true, roundTo2 ei), ⟨some (ts - jan12020 + ei), ei⟩) := by
      have hneg : (ts - jan12020) - (ts - jan12020 + ei) < 0 := by linarith
      have harg : -1 * ((ts - jan12020) - (ts - jan12020 + ei)) = ei := by ring
      simp only [LocalGCRA.is_rejected, Option.getD_some, hmax, if_pos hneg, harg]
    have hmax3 : max (ts - jan12020 + ei) (ts + d - jan12020) = ts + d - jan12020 :=
      max_eq_right (by linarith)
    have e3 : (LocalGCRA.is_rejected ⟨some (ts - jan12020 + ei), ei⟩ (ts + d)).1.1 = false := by
      have hnonneg : ¬ ((ts + d - jan12020) - (ts + d - jan12020) < 0) := by linarith
      simp only [LocalGCRA.is_rejected, Option.getD_some, hmax3, if_neg hnonneg]
    rw [e1]
    rw [e2]
    exact ⟨rfl, rfl, rfl, rfl, e3⟩

/-- Witness for C3 at `emission_interval = 6`, `ts = jan12020`, idle time 6:
allowed, rejected with `retryAfter = 6`, state unchanged, then allowed again. -/
theorem C3_local_gcra_pacing_witness :
    (0 : ℚ) < 6 ∧ (6 : ℚ) ≤ 6
    ∧ ((LocalGCRA.is_rejected ⟨none, 6⟩ jan12020).1.1 = false
      ∧ ((LocalGCRA.is_rejected ⟨none, 6⟩ jan12020).2.is_rejected jan12020).1.1 = true
      ∧ ((LocalGCRA.is_rejected ⟨none, 6⟩ jan12020).2.is_rejected jan12020).1.2 = roundTo2 6
      ∧ ((LocalGCRA.is_rejected ⟨none, 6⟩ jan12020).2.is_rejected jan12020).2
          = (LocalGCRA.is_rejected ⟨none, 6⟩ jan12020).2
      ∧ ((((LocalGCRA.is_rejected ⟨none, 6⟩ jan12020).2.is_rejected jan12020).2.is_rejected
          (jan12020 + 6)).1.1 = false)) :=
  ⟨by norm_num, by norm_num,
    C3_local_gcra_pacing.2 6 jan12020 6 (by norm_num) (by norm_num)⟩

/-- C9.  The `HeaderFilter` rule stack is class-level state, not per-instance:
after `mask_by_name` or `mask_authorization` is called on one instance, the
appended rule is observed in the stack of every other instance whose
`__dict__` does not shadow `stack` — which is every instance the source ever
creates, existing or subsequently created, since nothing assigns `self.stack`. -/
theorem C9_stack_is_class_level (h : Heap) (cls : HeaderFilterClass)
    (i1 i2 : HeaderFilterInstance) (hdr : String) (sf : Option Nat)
    (h1 : i1.ownStackRef = none) (h2 : i2.ownStackRef = none)
    (hr : cls.stackRef < h.lists.length) :
    observedStack (mask_by_name_model h cls i1 hdr sf) cls i2
        = observedStack h cls i2 ++ [RuleTag.byName hdr sf]
    ∧ observedStack (mask_authorization_model h cls i1) cls i2
        = observedStack h cls i2 ++ [RuleTag.authorization] := by
  unfold observedStack mask_by_name_model mask_authorization_model appendRuleAt lookupStackRef
  rw [h1, h2]
  simp only [Option.getD_none]
  constructor <;>
    rw [List.getD_eq_getElem?_getD, List.getElem?_set_eq_of_lt _ hr, Option.getD_some,
      List.getD_eq_getElem?_getD]

/-- Witness for C9: a fresh heap with one empty class-level list, the rule
registered through one fresh instance, observed through another fresh
instance. -/
theorem C9_stack_is_class_level_witness :
    observedStack (mask_by_name_model ⟨[[]]⟩ ⟨0⟩ newHeaderFilter "x-api-key" none) ⟨0⟩
        newHeaderFilter = [RuleTag.byName "x-api-key" none]
    ∧ observedStack (mask_authorization_model ⟨[[]]⟩ ⟨0⟩ newHeaderFilter) ⟨0⟩
        newHeaderFilter = [RuleTag.authorization] :=
  C9_stack_is_class_level ⟨[[]]⟩ ⟨0⟩ newHeaderFilter newHeaderFilter "x-api-key" none
    rfl rfl (by decide)

/-- C10.  A rejecting `is_rejected` call leaves the stored theoretical arrival
time unmodified, and `request_url` consults the limiter exactly once per
attempt, sleeping the advised wait (plus padding) and then sending without a
second consultation — so the send performed after the wait leaves the
limiter's state exactly as it was before the rejection. -/
theorem C10_rejected_send_unaccounted :
    (∀ (g : LocalGCRA) (ts : ℚ),
        (g.is_rejected ts).1.1 = true → (g.is_rejected ts).2 = g)
    ∧ ((request_url { tries := 1, kill_timeout_s := 10, rate_limiter := some ⟨some 5, 6⟩ }
          (fun _ _ => .response 200 0) jan12020).rlCalls = 1
      ∧ (request_url { tries := 1, kill_timeout_s := 10, rate_limiter := some ⟨some 5, 6⟩ }
          (fun _ _ => .response 200 0) jan12020).rlSleeps = [5 + 50/1000]
      ∧ (request_url { tries := 1, kill_timeout_s := 10, rate_limiter := some ⟨some 5, 6⟩ }
          (fun _ _ => .response 200 0) jan12020).outcome = .success 200
      ∧ (request_url { tries := 1, kill_timeout_s := 10, rate_limiter := some ⟨some 5, 6⟩ }
          (fun _ _ => .response 200 0) jan12020).limiterFinal = some ⟨some 5, 6⟩) := by
  constructor
  · intro g ts
    simp only [LocalGCRA.is_rejected]
    split
    · intro _; rfl
    · intro hc; exact absurd hc (by simp)
  · have hrej : LocalGCRA.is_rejected ⟨some 5, 6⟩ jan12020 = ((true, 5), ⟨some 5, 6⟩) := by
      have hmax : max (5 : ℚ) (jan12020 - jan12020) = 5 := by norm_num
      have hneg : (jan12020 - jan12020 : ℚ) - 5 < 0 := by norm_num
      have hr : roundTo2 (-1 * ((jan12020 - jan12020 : ℚ) - 5)) = 5 := by
        norm_num [roundTo2]
      simp only [LocalGCRA.is_rejected, Option.getD_some, hmax, if_pos hneg, hr]
    norm_num [request_url, requestLoop, killPhase, truthy, rlPhase, hrej,
      rlBudgetExceeded, backoffBudgetExceeded, classify, statusStr, RunTrace.stepCons]

/-- Witness for C10: the concrete rejecting call of the run above leaves the
state `⟨some 5, 6⟩` unchanged. -/
theorem C10_rejected_send_unaccounted_witness :
    (LocalGCRA.is_rejected ⟨some 5, 6⟩ jan12020).1.1 = true
    ∧ (LocalGCRA.is_rejected ⟨some 5, 6⟩ jan12020).2 = ⟨some 5, 6⟩ := by
  have ht : (LocalGCRA.is_rejected ⟨some 5, 6⟩ jan12020).1.1 = true := by
    have hmax : max (5 : ℚ) (jan12020 - jan12020) = 5 := by norm_num
    have hneg : (jan12020 - jan12020 : ℚ) - 5 < 0 := by norm_num
    simp only [LocalGCRA.is_rejected, Option.getD_some, hmax, if_pos hneg]
  exact ⟨ht, C10_rejected_send_unaccounted.1 ⟨some 5, 6⟩ jan12020 ht⟩

/-- Counterexample for C7 as stated: the ill-shaped entry `"4zz"` survives
`fatal_response_codes` (only the first character is checked), and the
non-3-digit entry `" 404"` survives `normal_response_codes` (Python `int`
strips whitespace), so construction does not reject every malformed
status-code entry. -/
theorem C7_counterexample :
    fatalCodeAccepted "4zz" = true ∧ wellFormedFatalPattern "4zz" = false
    ∧ normalCodeAccepted " 404" = true ∧ wellFormedNormalCode " 404" = false := by
  decide

/-- C7 as amended.  `fatal_response_codes` accepts exactly the strings whose
first character is `'4'` or `'5'` (no shape check at all), and
`normal_response_codes` accepts exactly the strings that Python `int` parses
to a value in `[400, 600)` (not only canonical 3-digit code strings); entries
such as `"4zz"` or `" 404"` therefore survive to runtime. -/
theorem C7_validation_amended :
    (∀ (code : String),
      fatalCodeAccepted code = true ↔
        (code.data.head? = some '4' ∨ code.data.head? = some '5'))
    ∧ (∀ (code : String),
      normalCodeAccepted code = true ↔
        ∃ n : Int, pyIntOfString code = some n ∧ 400 ≤ n ∧ n < 600)
    ∧ fatalCodeAccepted "4zz" = true ∧ normalCodeAccepted " 404" = true := by
  refine ⟨?_, ?_, by decide, by decide⟩
  · intro code
    obtain ⟨cs⟩ := code
    cases cs with
    | nil => decide
    | cons a rest =>
        unfold fatalCodeAccepted pySlice
        simp only [List.drop_zero, Nat.sub_zero, List.take_succ_cons, List.take_zero,
          List.head?_cons]
        rw [show ("4" : String) = String.mk ['4'] from rfl,
          show ("5" : String) = String.mk ['5'] from rfl]
        cases h4 : a == '4' <;> cases h5 : a == '5' <;>
          simp_all [String.ext_iff]
  · intro code
    unfold normalCodeAccepted
    cases h : pyIntOfString code with
    | none => simp [h]
    | some n =>
        simp only [h, Option.some.injEq, Bool.and_eq_true, decide_eq_true_eq]
        constructor
        · intro hn; exact ⟨n, rfl, hn.1, hn.2⟩
        · rintro ⟨m, hm, h4, h6⟩; cases hm; exact ⟨h4, h6⟩

/-- Witness for C7 as amended, at the concrete entries `"4zz"` and `" 404"`. -/
theorem C7_validation_amended_witness :
    (fatalCodeAccepted "4zz" = true ↔
      (("4zz" : String).data.head? = some '4' ∨ ("4zz" : String).data.head? = some '5'))
    ∧ (normalCodeAccepted " 404" = true ↔
      ∃ n : Int, pyIntOfString " 404" = some n ∧ 400 ≤ n ∧ n < 600) :=
  ⟨C7_validation_amended.1 "4zz", C7_validation_amended.2.1 " 404"⟩

/-- C8.  The authorization masking rule is a total function of the header
name/value pair (the embedding wraps every fallible decoding step exactly
where the source has `try/except`, so no input raises): a valid
`Basic base64(user:pass)` credential is recorded with the username visible and
the password masked; an undecodable basic credential degrades to the opaque
`?` placeholder; a bearer token of three dot-separated segments shows the
decoded header and payload but never the signature segment (two different
signatures give the same record); a three-segment bearer token with
undecodable segments degrades to `?` placeholders; a bearer token not shaped
as three segments is masked opaquely; any other credential scheme is masked
opaquely; and non-authorization headers or authorization values without a
scheme separator pass through unchanged. -/
theorem C8_mask_authorization_total :
    mask_authorization_fn "Authorization" "Basic dXNlcjpwYXNz"
        = ("Authorization", "Basic <<masked password, username=user>>")
    ∧ mask_authorization_fn "Authorization" "Basic A"
        = ("Authorization", "Basic <<masked password, username=?>>")
    ∧ mask_authorization_fn "Authorization" "Bearer aGRy.cGF5.c2ln"
        = ("Authorization", "Bearer <<masked JWT, header=hdr, body=pay>>")
    ∧ mask_authorization_fn "Authorization" "Bearer aGRy.cGF5.QUJD"
        = mask_authorization_fn "Authorization" "Bearer aGRy.cGF5.c2ln"
    ∧ mask_authorization_fn "Authorization" "Bearer A.B.C"
        = ("Authorization", "Bearer <<masked JWT, header=?, body=?>>")
    ∧ mask_authorization_fn "Authorization" "Bearer not-a-jwt"
        = ("Authorization", "Bearer <<masked opaque token>>")
    ∧ mask_authorization_fn "Authorization" "Token abc"
        = ("Authorization", "Token <<masked>>")
    ∧ mask_authorization_fn "Content-Type" "text/html"
        = ("Content-Type", "text/html")
    ∧ mask_authorization_fn "Authorization" "NoSpaceValue"
        = ("Authorization", "NoSpaceValue") := by
  decide

/-- Helper: with no total-time budget, no rate limiter and a transport that
always fails retryably, the loop started after `tries ≥ 1` attempts sleeps
`backoff_mul * backoff_exp ^ k` before each remaining attempt,
`k = tries, tries+1, ...`, and ends with the retries-exhausted failure. -/
theorem requestLoop_allFail (st : RequestStrategy) (transport : Nat → ℤ → AttemptResult)
    (t0 : ℚ) (hT : st.total_time = none)
    (hf : ∀ n k, ∃ d, transport n k = .transportError d) :
    ∀ (fuel tries : Nat) (elapsed : ℚ), 1 ≤ tries →
      (requestLoop st transport t0 fuel tries elapsed none).backoffSleeps
          = (List.range' tries fuel).map (fun k => st.backoff_mul * st.backoff_exp ^ k)
      ∧ (requestLoop st transport t0 fuel tries elapsed none).outcome
          = .failure (.exhausted st.tries) := by
  intro fuel
  induction fuel with
  | zero =>
      intro tries elapsed _
      exact ⟨rfl, rfl⟩
  | succ n ih =>
      intro tries elapsed htr
      obtain ⟨d, hd⟩ := hf (tries + 1) st.kill_timeout_s
      have h0 : (tries == 0) = false := by simp; omega
      have h0' : (tries != 0) = true := by simp [bne]; omega
      simp only [requestLoop, hT, backoffBudgetExceeded, truthy, Bool.false_and,
        Bool.and_false, h0, h0', Bool.true_and, Bool.false_eq_true, if_false,
        killPhase, hd, RunTrace.stepCons]
      have hrest := ih (tries + 1) (elapsed + st.backoff_mul * st.backoff_exp ^ tries + d)
        (by omega)
      refine ⟨?_, hrest.2⟩
      rw [hrest.1]
      rfl

/-- C2.  With every attempt failing retryably (and no total-time budget or
rate limiter involved), there is no backoff sleep before the first attempt and
the sleep before each later attempt is `backoff_mul * backoff_exp ^ k` seconds
where `k ≥ 1` is the number of attempts already made; after the last attempt
the retries-exhausted `RequestFailure` reports the configured number of tries.
Concretely, with `backoff_mul = 0.5`, `backoff_exp = 2`, `tries = 3`, the
sleeps are exactly `1.0` and `2.0` seconds and the failure message reports 3
tries. -/
theorem C2_backoff_schedule :
    (∀ (st : RequestStrategy) (transport : Nat → ℤ → AttemptResult) (t0 : ℚ),
      st.total_time = none → st.rate_limiter = none → 1 ≤ st.tries →
      (∀ n k, ∃ d, transport n k = .transportError d) →
      (request_url st transport t0).backoffSleeps
          = (List.range' 1 (st.tries - 1)).map (fun k => st.backoff_mul * st.backoff_exp ^ k)
      ∧ (request_url st transport t0).outcome = .failure (.exhausted st.tries)
      ∧ (RaisedException.exhausted st.tries).message
          = "Request failed (total: " ++ toString st.tries ++ " tries)")
    ∧ ((request_url { tries := 3, backoff_mul := 1/2, backoff_exp := 2, kill_timeout_s := 10 }
          (fun _ _ => .transportError 0) 0).backoffSleeps = [1, 2]
      ∧ (request_url { tries := 3, backoff_mul := 1/2, backoff_exp := 2, kill_timeout_s := 10 }
          (fun _ _ => .transportError 0) 0).outcome = .failure (.exhausted 3)
      ∧ RaisedException.message (.exhausted 3) = "Request failed (total: 3 tries)") := by
  constructor
  · intro st transport t0 hT hrl htries hf
    obtain ⟨m, hm⟩ : ∃ m, st.tries = m + 1 := ⟨st.tries - 1, by omega⟩
    obtain ⟨d, hd⟩ := hf 1 st.kill_timeout_s
    have hfirst : request_url st transport t0
        = (requestLoop st transport t0 m 1 (0 + d) none).stepCons [] [] st.kill_timeout_s 0 := by
      unfold request_url
      rw [hrl, hm]
      simp only [requestLoop, hT, backoffBudgetExceeded, truthy, Bool.false_and,
        Bool.and_false, bne_self_eq_false, Bool.false_eq_true, if_false, killPhase,
        Nat.zero_add, hd, RunTrace.stepCons, beq_self_eq_true, if_true]
    have hrest := requestLoop_allFail st transport t0 hT hf m 1 (0 + d) (by omega)
    refine ⟨?_, ?_, rfl⟩
    · rw [hfirst]
      show [] ++ (requestLoop st transport t0 m 1 (0 + d) none).backoffSleeps = _
      rw [List.nil_append, hrest.1, hm]
      rfl
    · rw [hfirst]
      exact hrest.2
  · refine ⟨?_, ?_, by decide⟩ <;>
      norm_num [request_url, requestLoop, backoffBudgetExceeded, truthy, killPhase,
        RunTrace.stepCons]

/-- Witness for C2 at the concrete configuration of the claim. -/
theorem C2_backoff_schedule_witness :
    (request_url { tries := 3, backoff_mul := 1/2, backoff_exp := 2, kill_timeout_s := 10 }
        (fun _ _ => .transportError 0) 0).backoffSleeps
      = (List.range' 1 2).map (fun k => (1/2 : ℚ) * 2 ^ k)
    ∧ (request_url { tries := 3, backoff_mul := 1/2, backoff_exp := 2, kill_timeout_s := 10 }
        (fun _ _ => .transportError 0) 0).outcome = .failure (.exhausted 3) := by
  have h := C2_backoff_schedule.1
    { tries := 3, backoff_mul := 1/2, backoff_exp := 2, kill_timeout_s := 10 }
    (fun _ _ => .transportError 0) 0 rfl rfl (by decide) (fun n k => ⟨0, rfl⟩)
  exact ⟨h.1, h.2.1⟩

/-- Helper: a kill timeout produced by `killPhase` never exceeds the
strategy's `kill_timeout_s`. -/
theorem killPhase_ok_le (total : Option ℚ) (elapsed : ℚ) (kill kt : ℤ)
    (h : killPhase total elapsed kill = .ok kt) : kt ≤ kill := by
  simp only [killPhase] at h
  split_ifs at h with h1 h2
  all_goals first
    | exact Except.noConfusion h
    | · injection h with h
        rw [← h]
        exact le_trans (Int.ceil_le_ceil (min_le_right _ _))
          (le_of_eq (Int.ceil_intCast kill))
    | · injection h with h
        rw [← h]

/-- Helper: every kill timeout recorded in a run of the loop is bounded by the
strategy's `kill_timeout_s`. -/
theorem requestLoop_kills_le (st : RequestStrategy) (transport : Nat → ℤ → AttemptResult)
    (t0 : ℚ) :
    ∀ (fuel tries : Nat) (elapsed : ℚ) (g : Option LocalGCRA) (k : ℤ),
      k ∈ (requestLoop st transport t0 fuel tries elapsed g).kills →
      k ≤ st.kill_timeout_s := by
  intro fuel
  induction fuel with
  | zero =>
      intro tries elapsed g k hk
      simp only [requestLoop, List.not_mem_nil] at hk
  | succ n ih =>
      intro tries elapsed g k hk
      simp only [requestLoop, RunTrace.stepCons] at hk
      split at hk
      · simp at hk
      · split at hk
        · simp at hk
        · split at hk
          · simp at hk
          · split at hk
            · simp only [List.mem_cons] at hk
              rcases hk with rfl | hk
              · exact killPhase_ok_le _ _ _ _ (by assumption)
              · exact ih _ _ _ _ hk
            · split at hk
              · simp only [List.mem_cons] at hk
                rcases hk with rfl | hk
                · exact killPhase_ok_le _ _ _ _ (by assumption)
                · exact ih _ _ _ _ hk
              · split at hk
                · simp only [List.mem_singleton] at hk
                  subst hk
                  exact killPhase_ok_le _ _ _ _ (by assumption)
                · simp only [List.mem_singleton] at hk
                  subst hk
                  exact killPhase_ok_le _ _ _ _ (by assumption)
                · simp only [List.mem_cons] at hk
                  rcases hk with rfl | hk
                  · exact killPhase_ok_le _ _ _ _ (by assumption)
                  · exact ih _ _ _ _ hk

/-- C4.  With a positive remaining budget `T - elapsed`, the effective kill
timeout handed to the transport is `ceil(min(remainingBudget, kill_timeout_s))`;
it never exceeds `kill_timeout_s` (over every run, every recorded kill timeout
is bounded by the strategy's `kill_timeout_s`); with `0.1` seconds of budget
remaining and `kill_timeout_s = 10` it equals `1`.  With remaining budget
`≤ 0` before an attempt, a budget-exhausted `RequestFailure` is raised instead
of attempting. -/
theorem C4_effective_kill_timeout :
    (∀ (T elapsed : ℚ) (kill : ℤ), T ≠ 0 → 0 < T - elapsed →
        killPhase (some T) elapsed kill = .ok ⌈min (T - elapsed) (kill : ℚ)⌉
        ∧ ⌈min (T - elapsed) (kill : ℚ)⌉ ≤ kill)
    ∧ (∀ (T elapsed : ℚ) (kill : ℤ), T ≠ 0 → T - elapsed ≤ 0 →
        killPhase (some T) elapsed kill = .error (.totalBudget T))
    ∧ (∀ (st : RequestStrategy) (transport : Nat → ℤ → AttemptResult) (t0 : ℚ) (k : ℤ),
        k ∈ (request_url st transport t0).kills → k ≤ st.kill_timeout_s)
    ∧ ((⌈min (1/10 : ℚ) ((10 : ℤ) : ℚ)⌉ : ℤ) = 1
      ∧ (request_url { tries := 2, total_time := some 2, kill_timeout_s := 10, backoff_mul := 0 }
          (fun n _ => if n == 1 then .transportError (19/10) else .response 200 0) 0).kills
        = [2, 1]
      ∧ (request_url { tries := 2, total_time := some 2, kill_timeout_s := 10, backoff_mul := 0 }
          (fun n _ => if n == 1 then .transportError (19/10) else .response 200 0) 0).outcome
        = .success 200)
    ∧ ((request_url { tries := 2, total_time := some 2, kill_timeout_s := 10, backoff_mul := 0 }
          (fun _ _ => .transportError (5/2)) 0).outcome = .failure (.backoffBudget 2)
      ∧ (RaisedException.backoffBudget 2).isBudgetFailure = true
      ∧ (request_url { tries := 2, total_time := some 2, kill_timeout_s := 10, backoff_mul := 0 }
          (fun _ _ => .transportError (5/2)) 0).kills.length = 1) := by
  refine ⟨?_, ?_, ?_, ⟨?_, ?_, ?_⟩, ⟨?_, by decide, ?_⟩⟩
  · intro T elapsed kill hT0 hpos
    have htr : truthy (some T) = true := by simp [truthy, hT0]
    constructor
    · simp only [killPhase, htr, if_true, Option.getD_some, if_neg (not_le.mpr hpos)]
    · exact le_trans (Int.ceil_le_ceil (min_le_right _ _)) (le_of_eq (Int.ceil_intCast kill))
  · intro T elapsed kill hT0 hneg
    have htr : truthy (some T) = true := by simp [truthy, hT0]
    simp only [killPhase, htr, if_true, Option.getD_some, if_pos hneg]
  · intro st transport t0 k hk
    exact requestLoop_kills_le st transport t0 st.tries 0 0 st.rate_limiter k hk
  · norm_num
    rw [Int.ceil_eq_iff]
    norm_num
  · norm_num [request_url, requestLoop, backoffBudgetExceeded, truthy, killPhase,
      RunTrace.stepCons, classify, statusStr]
    rw [Int.ceil_eq_iff]
    norm_num
  · norm_num [request_url, requestLoop, backoffBudgetExceeded, truthy, killPhase,
      RunTrace.stepCons, classify, statusStr]
  · norm_num [request_url, requestLoop, backoffBudgetExceeded, truthy, killPhase,
      RunTrace.stepCons]
  · norm_num [request_url, requestLoop, backoffBudgetExceeded, truthy, killPhase,
      RunTrace.stepCons]

/-- Witness for C4 at concrete inputs: budget `T = 2`, `elapsed = 1.9`,
`kill_timeout_s = 10` gives the effective kill timeout `ceil(min(0.1, 10)) = 1`,
and an exhausted budget raises the total-timeout failure. -/
theorem C4_effective_kill_timeout_witness :
    (killPhase (some 2) (19/10) 10 = .ok ⌈min ((2 : ℚ) - 19/10) ((10 : ℤ) : ℚ)⌉
      ∧ (⌈min ((2 : ℚ) - 19/10) ((10 : ℤ) : ℚ)⌉ : ℤ) ≤ 10)
    ∧ killPhase (some 2) (5/2) 10 = .error (.totalBudget 2)
    ∧ ((request_url { tries := 1, kill_timeout_s := 7 } (fun _ _ => .transportError 0) 0).kills
        = [7] →
      (7 : ℤ) ≤ ({ tries := 1, kill_timeout_s := 7 : RequestStrategy}).kill_timeout_s) := by
  refine ⟨C4_effective_kill_timeout.1 2 (19/10) 10 (by norm_num) (by norm_num),
    C4_effective_kill_timeout.2.1 2 (5/2) 10 (by norm_num) (by norm_num),
    fun hmem => C4_effective_kill_timeout.2.2.1
      { tries := 1, kill_timeout_s := 7 } (fun _ _ => .transportError 0) 0 7 ?_⟩
  rw [hmem]
  exact List.mem_singleton_self 7

/-- Counterexample for C5 as stated: a total-budget-exhaustion failure and a
retry-budget-exhaustion failure raise the same Python exception class
(`RequestFailure`, exceptions.py line 8), so the two kinds are not
distinguishable by kind for these invocations. -/
theorem C5_counterexample :
    (request_url { tries := 2, total_time := some 2, kill_timeout_s := 10, backoff_mul := 0 }
        (fun _ _ => .transportError (5/2)) 0).outcome = .failure (.backoffBudget 2)
    ∧ (request_url { tries := 1, kill_timeout_s := 10 }
        (fun _ _ => .transportError 0) 0).outcome = .failure (.exhausted 1)
    ∧ (request_url { tries := 2, total_time := some 2, kill_timeout_s := 10, backoff_mul := 0 }
        (fun _ _ => .transportError (5/2)) 0).raisedType = some "RequestFailure"
    ∧ (request_url { tries := 1, kill_timeout_s := 10 }
        (fun _ _ => .transportError 0) 0).raisedType
      = (request_url { tries := 2, total_time := some 2, kill_timeout_s := 10, backoff_mul := 0 }
        (fun _ _ => .transportError (5/2)) 0).raisedType := by
  have hb : (request_url
      { tries := 2, total_time := some 2, kill_timeout_s := 10, backoff_mul := 0 }
      (fun _ _ => .transportError (5/2)) 0).outcome
      = .failure (.backoffBudget 2) := by
    norm_num [request_url, requestLoop, backoffBudgetExceeded, truthy, killPhase,
      RunTrace.stepCons]
  have he : (request_url { tries := 1, kill_timeout_s := 10 }
      (fun _ _ => .transportError 0) 0).outcome = .failure (.exhausted 1) := by
    norm_num [request_url, requestLoop, backoffBudgetExceeded, truthy, killPhase,
      RunTrace.stepCons]
  refine ⟨hb, he, ?_, ?_⟩ <;> unfold RunTrace.raisedType <;> rw [hb] <;> try rw [he]
  · rfl
  · rfl

/-- C5 as amended.  A fatal HTTP status surfaces as `HTTPError`, distinct by
exception class from every resilience-layer failure; but total-budget
exhaustion (in all three raise sites) and retries exhaustion all raise the
single class `RequestFailure` and are distinguishable only by message text,
never by kind. -/
theorem C5_error_kinds_amended :
    (∀ (t w : ℚ) (n s : Nat),
        (RaisedException.backoffBudget t).pythonType = (RaisedException.exhausted n).pythonType
      ∧ (RaisedException.totalBudget t).pythonType = (RaisedException.exhausted n).pythonType
      ∧ (RaisedException.rateLimitBudget t w).pythonType
          = (RaisedException.exhausted n).pythonType
      ∧ (RaisedException.httpError s).pythonType ≠ (RaisedException.exhausted n).pythonType
      ∧ (RaisedException.httpError s).pythonType ≠ (RaisedException.totalBudget t).pythonType)
    ∧ (∀ (t : ℚ) (n : Nat),
        (RaisedException.backoffBudget t).message ≠ (RaisedException.exhausted n).message
      ∧ (RaisedException.totalBudget t).message ≠ (RaisedException.exhausted n).message)
    ∧ (∀ (w t : ℚ) (n : Nat),
        (RaisedException.rateLimitBudget t w).message ≠ (RaisedException.exhausted n).message) := by
  refine ⟨fun t w n s => ⟨rfl, rfl, rfl,
      fun h => absurd (show ("HTTPError" : String) = "RequestFailure" from h) (by decide),
      fun h => absurd (show ("HTTPError" : String) = "RequestFailure" from h) (by decide)⟩,
    fun t n => ⟨?_, ?_⟩,
    fun w t n => ?_⟩ <;>
    · intro h
      have h2 := congrArg (fun s => s.data.head?) h
      simp only [RaisedException.message, String.data_append, List.cons_append,
        List.head?_cons, Option.some.injEq] at h2
      exact absurd h2 (by decide)

/-- Witness for C5 as amended, at concrete exception values. -/
theorem C5_error_kinds_amended_witness :
    ((RaisedException.backoffBudget 2).pythonType = (RaisedException.exhausted 1).pythonType
      ∧ (RaisedException.totalBudget 2).pythonType = (RaisedException.exhausted 1).pythonType
      ∧ (RaisedException.rateLimitBudget 2 1).pythonType
          = (RaisedException.exhausted 1).pythonType
      ∧ (RaisedException.httpError 500).pythonType ≠ (RaisedException.exhausted 1).pythonType
      ∧ (RaisedException.httpError 500).pythonType ≠ (RaisedException.totalBudget 2).pythonType)
    ∧ (RaisedException.backoffBudget 2).message ≠ (RaisedException.exhausted 1).message :=
  ⟨C5_error_kinds_amended.1 2 1 1 500, (C5_error_kinds_amended.2.1 2 1).1⟩

/-- Counterexample for C6 as stated: with a total budget of `1` second, no
elapsed time and a rate-limiter wait of `0.96` seconds, the claim's condition
`remainingBudget - (w + 0.05) ≤ 0` holds, yet the engine does not raise a
budget-exhausted failure — it sleeps `w + 0.05 = 1.01` seconds and completes
successfully, because the source's check (apifetch.py lines 116-122) compares
the budget against `w` alone, without the 50 ms padding that is added to the
actual sleep. -/
theorem C6_counterexample :
    (LocalGCRA.is_rejected ⟨some (96/100), 6⟩ jan12020).1 = (true, 96/100)
    ∧ ((1 : ℚ) - 0 - (96/100 + 50/1000) ≤ 0)
    ∧ (request_url
        { tries := 1, total_time := some 1, kill_timeout_s := 10,
          rate_limiter := some ⟨some (96/100), 6⟩ }
        (fun _ _ => .response 200 0) jan12020).rlSleeps = [96/100 + 50/1000]
    ∧ (request_url
        { tries := 1, total_time := some 1, kill_timeout_s := 10,
          rate_limiter := some ⟨some (96/100), 6⟩ }
        (fun _ _ => .response 200 0) jan12020).outcome = .success 200 := by
  have h96 : roundTo2 (24/25 : ℚ) = 24/25 := by
    unfold roundTo2
    rw [show (24/25 : ℚ) * 100 = 96 by norm_num]
    rw [round_eq]
    rw [show (96 : ℚ) + 1/2 = 193/2 by norm_num]
    rw [show ⌊(193 : ℚ)/2⌋ = 96 from by rw [Int.floor_eq_iff] <;> norm_num]
    norm_num
  have hrej : LocalGCRA.is_rejected ⟨some (24/25), 6⟩ jan12020
      = ((true, 24/25), ⟨some (24/25), 6⟩) := by
    have hmax : max ((24 : ℚ)/25) (jan12020 - jan12020) = 24/25 := by norm_num
    have hneg : (jan12020 - jan12020 : ℚ) - 24/25 < 0 := by norm_num
    have harg : -1 * ((jan12020 - jan12020 : ℚ) - 24/25) = 24/25 := by ring
    simp only [LocalGCRA.is_rejected, Option.getD_some, hmax, if_pos hneg, harg, h96]
  refine ⟨by rw [show ((96 : ℚ)/100) = 24/25 by norm_num, hrej], by norm_num, ?_, ?_⟩ <;>
    norm_num [request_url, requestLoop, killPhase, truthy, rlPhase, hrej,
      rlBudgetExceeded, backoffBudgetExceeded, classify, statusStr, RunTrace.stepCons]

/-- C6 as amended.  On a rate-limiter rejection with advised wait `w` and a
(truthy) total budget `T`, the engine raises the budget-exhausted failure
exactly when `T - elapsed - w ≤ 0` — the advised wait alone, without the 50 ms
padding — and otherwise sleeps `w + 0.05` seconds before sending.  Concretely,
a wait of `0.96` against a remaining budget of `1` second sleeps `1.01`
seconds, and a wait of `2` raises the rate-limiter budget failure without
sleeping. -/
theorem C6_rate_limit_budget_amended :
    (∀ (T elapsed w : ℚ), T ≠ 0 →
        (rlBudgetExceeded (some T) elapsed w = true ↔ T - elapsed - w ≤ 0))
    ∧ (∀ (total : Option ℚ) (elapsed : ℚ) (gc : LocalGCRA) (ts : ℚ),
        (gc.is_rejected ts).1.1 = true →
        rlPhase total elapsed gc ts =
          if rlBudgetExceeded total elapsed (gc.is_rejected ts).1.2 then
            ((gc.is_rejected ts).2,
              .error (.rateLimitBudget (total.getD 0) (gc.is_rejected ts).1.2))
          else ((gc.is_rejected ts).2,
              .ok ([(gc.is_rejected ts).1.2 + 50/1000],
                elapsed + ((gc.is_rejected ts).1.2 + 50/1000))))
    ∧ (request_url
        { tries := 1, total_time := some 1, kill_timeout_s := 10,
          rate_limiter := some ⟨some 2, 6⟩ }
        (fun _ _ => .response 200 0) jan12020).outcome = .failure (.rateLimitBudget 1 2)
    ∧ (request_url
        { tries := 1, total_time := some 1, kill_timeout_s := 10,
          rate_limiter := some ⟨some 2, 6⟩ }
        (fun _ _ => .response 200 0) jan12020).rlSleeps = [] := by
  have h2 : roundTo2 (2 : ℚ) = 2 := by
    unfold roundTo2
    rw [show (2 : ℚ) * 100 = 200 by norm_num]
    rw [round_eq]
    rw [show (200 : ℚ) + 1/2 = 401/2 by norm_num]
    rw [show ⌊(401 : ℚ)/2⌋ = 200 from by rw [Int.floor_eq_iff] <;> norm_num]
    norm_num
  have hrej : LocalGCRA.is_rejected ⟨some 2, 6⟩ jan12020 = ((true, 2), ⟨some 2, 6⟩) := by
    have hmax : max (2 : ℚ) (jan12020 - jan12020) = 2 := by norm_num
    have hneg : (jan12020 - jan12020 : ℚ) - 2 < 0 := by norm_num
    have harg : -1 * ((jan12020 - jan12020 : ℚ) - 2) = 2 := by ring
    simp only [LocalGCRA.is_rejected, Option.getD_some, hmax, if_pos hneg, harg, h2]
  refine ⟨?_, ?_, ?_, ?_⟩
  · intro T elapsed w hT0
    simp [rlBudgetExceeded, truthy, hT0]
  · intro total elapsed gc ts hr
    simp only [rlPhase, hr, if_true]
  · norm_num [request_url, requestLoop, killPhase, truthy, rlPhase, hrej,
      rlBudgetExceeded, backoffBudgetExceeded, RunTrace.stepCons]
  · norm_num [request_url, requestLoop, killPhase, truthy, rlPhase, hrej,
      rlBudgetExceeded, backoffBudgetExceeded, RunTrace.stepCons]

/-- Witness for C6 as amended, at the two concrete waits of the scenario. -/
theorem C6_rate_limit_budget_amended_witness :
    (rlBudgetExceeded (some 1) 0 (96/100) = true ↔ (1 : ℚ) - 0 - 96/100 ≤ 0)
    ∧ (rlBudgetExceeded (some 1) 0 2 = true ↔ (1 : ℚ) - 0 - 2 ≤ 0) :=
  ⟨C6_rate_limit_budget_amended.1 1 0 (96/100) (by norm_num),
    C6_rate_limit_budget_amended.1 1 0 2 (by norm_num)⟩

end Apifetch
